import Mathlib

/-!
Shallow embedding of `nltk/lm/vocabulary.py`.

The module defines a `Vocabulary` class storing a `collections.Counter` of
token counts, an unknown-token label and a cutoff.  We embed the
`Counter` as an insertion-ordered association list over `String` keys with
`Int` values (Python ints), and each method of the class as a Lean
function on a `Vocabulary` structure.  Stateful behaviour (the claim that
queries do not mutate the counter) is embedded a second time as explicit
state-passing functions suffixed `S`.
-/

namespace NltkVocab

/-- `collections.Counter` over string keys: an insertion-ordered mapping,
modelled as an association list.  In any state a Python `dict` can reach the
keys are distinct; lookups read the first matching key. -/
abbrev Counter := List (String × Int)

/-- The keys of the counter in insertion order (`for item in self.counts`). -/
def keys (c : Counter) : List String := c.map Prod.fst

/-- `Counter.__getitem__`: the stored count of `t`, where `Counter.__missing__`
returns `0` for an absent key. -/
def countOf : Counter → String → Int
  | [], _ => 0
  | (k, n) :: rest, t => if k = t then n else countOf rest t

/-- One step of `Counter.update` with an iterable of tokens: add `1` to the
count of `t`, inserting `t` with count `1` at the end when absent (Python
dicts append new keys in insertion order). -/
def counterIncr : Counter → String → Counter
  | [], t => [(t, 1)]
  | (k, n) :: rest, t => if k = t then (k, n + 1) :: rest else (k, n) :: counterIncr rest t

/-- `Counter.update(tokens)` for an iterable of tokens: count each token of
the iterable in order. -/
def counterUpdate (c : Counter) (ts : List String) : Counter :=
  ts.foldl counterIncr c

/-- The `Vocabulary` object: its `counts` Counter, the `unk_label` string and
the stored `_cutoff` (exposed by the read-only `cutoff` property). -/
structure Vocabulary where
  counts : Counter
  unk_label : String
  cutoff : Int

/-- `Vocabulary.__getitem__`: `self._cutoff if item == self.unk_label else
self.counts[item]`. -/
def getitem (v : Vocabulary) (t : String) : Int :=
  if t = v.unk_label then v.cutoff else countOf v.counts t

/-- `Vocabulary.__contains__`: `self[item] >= self.cutoff`. -/
def containsB (v : Vocabulary) (t : String) : Bool :=
  decide (v.cutoff ≤ getitem v t)

/-- `Vocabulary.__iter__`: `chain((item for item in self.counts if item in
self), [self.unk_label] if self.counts else [])`, as the list of yielded
tokens. -/
def iterTokens (v : Vocabulary) : List String :=
  (keys v.counts).filter (fun t => containsB v t)
    ++ (if v.counts.isEmpty then [] else [v.unk_label])

/-- `Vocabulary.__len__`: `sum(1 for _ in self)`. -/
def lenV (v : Vocabulary) : Nat :=
  (iterTokens v).length

/-- `Vocabulary.update`: wraps `Counter.update`, here applied to an iterable
of tokens.  In Python the method returns `None`; its entire effect is the new
state. -/
def updateV (v : Vocabulary) (ts : List String) : Vocabulary :=
  ⟨counterUpdate v.counts ts, v.unk_label, v.cutoff⟩

/-- The argument universe of `_dispatched_lookup`: a Python object that is a
string, a non-string iterable (sequence of further objects), or anything
else (modelled by an int), the case `singledispatch` leaves unregistered. -/
inductive PyObj where
  | str : String → PyObj
  | list : List PyObj → PyObj
  | int : Int → PyObj

/-- What a call to `lookup` hands back when it does not raise: a looked-up
string, or the unevaluated generator over the input sequence. -/
inductive LookupResult where
  | str : String → LookupResult
  | gen : List PyObj → LookupResult

/-- The `str` branch of `_dispatched_lookup`: `word if word in vocab else
vocab.unk_label`. -/
def singleLookup (v : Vocabulary) (w : String) : String :=
  if containsB v w then w else v.unk_label

/-- `Vocabulary.lookup` = `_dispatched_lookup(words, self)`: the `str`
overload looks the word up, the `Iterable` overload returns a generator
without evaluating any element, and the base overload raises `TypeError`. -/
def lookup (v : Vocabulary) : PyObj → Except String LookupResult
  | PyObj.str w => Except.ok (LookupResult.str (singleLookup v w))
  | PyObj.list ws => Except.ok (LookupResult.gen ws)
  | PyObj.int _ => Except.error "Unsupported type for looking up in vocabulary"

/-- Consuming the generator returned by the `Iterable` overload: each element
is dispatched through `_dispatched_lookup` in turn. -/
def forceGen (v : Vocabulary) (ws : List PyObj) : List (Except String LookupResult) :=
  ws.map (fun w => lookup v w)

/-- The `counts` argument of `Vocabulary.__init__`: a `Counter` (stored as
is), some other iterable (counted), or `None`. -/
inductive CountsArg where
  | counter : Counter → CountsArg
  | iterable : List String → CountsArg
  | noneArg : CountsArg

/-- How `__init__` seeds `self.counts` from its `counts` argument. -/
def initCounts : CountsArg → Counter
  | CountsArg.counter c => c
  | CountsArg.iterable ws => counterUpdate [] ws
  | CountsArg.noneArg => []

/-- `Vocabulary.__init__`: raises `ValueError` when `unk_cutoff < 1`, in
which case construction fails and no object results; otherwise stores the
counts, the label and the cutoff. -/
def vocabInit (counts : CountsArg) (unk_cutoff : Int) (unk_label : String) :
    Except String Vocabulary :=
  if unk_cutoff < 1 then Except.error "Cutoff value cannot be less than 1"
  else Except.ok ⟨initCounts counts, unk_label, unk_cutoff⟩

/-- The vocabulary of the module docstring: the words
`a c - d c a b r a c d` with `unk_cutoff=2` and the default label. -/
def specWords : List String := ["a", "c", "-", "d", "c", "a", "b", "r", "a", "c", "d"]

/-- The docstring example vocabulary, built the way `__init__` builds it from
an iterable. -/
def specVocab : Vocabulary := ⟨counterUpdate [] specWords, "<UNK>", 2⟩

/-- A vocabulary with no counts at all: `Vocabulary(unk_cutoff=1)`. -/
def emptyVocab : Vocabulary := ⟨[], "<UNK>", 1⟩

/-- A vocabulary whose `unk_label` collides with an observed token passing
the cutoff: `Vocabulary(["<UNK>"] * 5, unk_cutoff=1)`. -/
def collideVocab : Vocabulary := ⟨[("<UNK>", 5)], "<UNK>", 1⟩

/-- A vocabulary whose `unk_label` collides with an observed token whose
stored count is below the cutoff: `Vocabulary(["<UNK>"], unk_cutoff=2)`. -/
def collideVocabLow : Vocabulary := ⟨[("<UNK>", 1)], "<UNK>", 2⟩

/- ------------------------------------------------------------------ -/
/- Basic lemmas about the Counter embedding.                           -/
/- ------------------------------------------------------------------ -/

theorem countOf_eq_zero_of_not_mem {c : Counter} {t : String} (h : t ∉ keys c) :
    countOf c t = 0 := by
  induction c with
  | nil => rfl
  | cons p rest ih =>
    simp only [keys, List.map_cons, List.mem_cons, not_or] at h
    simp only [countOf]
    rw [if_neg (fun e => h.1 e.symm)]
    exact ih (by simpa [keys] using h.2)

theorem getitem_of_ne {v : Vocabulary} {t : String} (h : t ≠ v.unk_label) :
    getitem v t = countOf v.counts t := by
  simp [getitem, h]

theorem getitem_unk (v : Vocabulary) : getitem v v.unk_label = v.cutoff := by
  simp [getitem]

/-- On a key distinct from `unk_label`, membership is the stored-count test. -/
theorem containsB_of_ne {v : Vocabulary} {t : String} (h : t ≠ v.unk_label) :
    containsB v t = decide (v.cutoff ≤ countOf v.counts t) := by
  simp [containsB, getitem_of_ne h]

/-- `unk_label` always passes the membership test. -/
theorem containsB_unk (v : Vocabulary) : containsB v v.unk_label = true := by
  simp [containsB, getitem_unk]

/-- When `unk_label` is not among the stored keys, the membership filter over
the keys coincides with the stored-count filter. -/
theorem filter_containsB_eq {v : Vocabulary} (h : v.unk_label ∉ keys v.counts) :
    (keys v.counts).filter (fun t => containsB v t)
      = (keys v.counts).filter (fun t => decide (v.cutoff ≤ countOf v.counts t)) := by
  apply List.filter_congr
  intro x hx
  exact containsB_of_ne (fun e => h (e ▸ hx))

/-- When `unk_label` is not among the stored keys, it does not occur in the
filtered key list either. -/
theorem count_unk_filter_eq_zero {v : Vocabulary} (h : v.unk_label ∉ keys v.counts) :
    ((keys v.counts).filter (fun t => containsB v t)).count v.unk_label = 0 := by
  refine List.count_eq_zero.mpr (fun hmem => h ?_)
  exact List.mem_of_mem_filter hmem

/- ------------------------------------------------------------------ -/
/- Stateful embedding of the query operations.                         -/
/- ------------------------------------------------------------------ -/

/-- Stateful `Counter.__getitem__`: `dict.__getitem__` returns the stored
value for a present key; for an absent key it calls `Counter.__missing__`,
which returns `0` without inserting anything (unlike `defaultdict`).  Result
paired with the counter state after the call. -/
def counterGetS (c : Counter) (t : String) : Int × Counter :=
  match c.find? (fun p => decide (p.1 = t)) with
  | some p => (p.2, c)
  | none => (0, c)

/-- Stateful `Vocabulary.__getitem__`, threading the state it touches. -/
def getitemS (v : Vocabulary) (t : String) : Int × Vocabulary :=
  if t = v.unk_label then (v.cutoff, v)
  else ((counterGetS v.counts t).1, ⟨(counterGetS v.counts t).2, v.unk_label, v.cutoff⟩)

/-- Stateful `Vocabulary.__contains__`: reads `self[item]`, then compares it
with the cutoff of the state left by that read. -/
def containsS (v : Vocabulary) (t : String) : Bool × Vocabulary :=
  (decide ((getitemS v t).2.cutoff ≤ (getitemS v t).1), (getitemS v t).2)

/-- One step of the stateful `__iter__` generator: membership-test the next
key in the state produced so far, yielding it when the test passes. -/
def iterStep (a : List String × Vocabulary) (t : String) : List String × Vocabulary :=
  ((if (containsS a.2 t).1 then a.1 ++ [t] else a.1), (containsS a.2 t).2)

/-- Stateful `Vocabulary.__iter__`: runs the membership test over the keys,
then reads `self.counts` and `self.unk_label` once more for the appended
tail. -/
def iterS (v : Vocabulary) : List String × Vocabulary :=
  ((((keys v.counts).foldl iterStep ([], v)).1
      ++ (if (((keys v.counts).foldl iterStep ([], v)).2.counts.isEmpty) then []
          else [(((keys v.counts).foldl iterStep ([], v)).2.unk_label)])),
   ((keys v.counts).foldl iterStep ([], v)).2)

/-- Stateful `Vocabulary.__len__`: counts what `__iter__` yields. -/
def lenS (v : Vocabulary) : Nat × Vocabulary :=
  ((iterS v).1.length, (iterS v).2)

/-- Stateful `Vocabulary.lookup`: the `str` overload runs the membership
test; the `Iterable` overload returns its generator and the base overload
raises, touching no state. -/
def lookupS (v : Vocabulary) : PyObj → Except String LookupResult × Vocabulary
  | PyObj.str w =>
      (Except.ok (LookupResult.str
        (if (containsS v w).1 then w else (containsS v w).2.unk_label)),
       (containsS v w).2)
  | PyObj.list ws => (Except.ok (LookupResult.gen ws), v)
  | PyObj.int _ => (Except.error "Unsupported type for looking up in vocabulary", v)

theorem counterGetS_snd (c : Counter) (t : String) : (counterGetS c t).2 = c := by
  unfold counterGetS
  cases c.find? (fun p => decide (p.1 = t)) <;> rfl

theorem countOf_eq_find? (c : Counter) (t : String) :
    countOf c t = match c.find? (fun p => decide (p.1 = t)) with
      | some p => p.2
      | none => 0 := by
  induction c with
  | nil => rfl
  | cons p rest ih =>
    obtain ⟨k, n⟩ := p
    by_cases h : k = t
    · simp [countOf, List.find?, h]
    · simpa [countOf, List.find?, h] using ih

theorem counterGetS_fst (c : Counter) (t : String) : (counterGetS c t).1 = countOf c t := by
  rw [countOf_eq_find?]
  unfold counterGetS
  cases c.find? (fun p => decide (p.1 = t)) <;> rfl

theorem getitemS_snd (v : Vocabulary) (t : String) : (getitemS v t).2 = v := by
  unfold getitemS
  by_cases h : t = v.unk_label <;> simp [h, counterGetS_snd]

theorem getitemS_fst (v : Vocabulary) (t : String) : (getitemS v t).1 = getitem v t := by
  unfold getitemS getitem
  by_cases h : t = v.unk_label <;> simp [h, counterGetS_fst]

theorem containsS_eq (v : Vocabulary) (t : String) :
    containsS v t = (containsB v t, v) := by
  unfold containsS containsB
  rw [getitemS_snd, getitemS_fst]

theorem iterStep_eq (a : List String × Vocabulary) (t : String) :
    iterStep a t = ((if containsB a.2 t then a.1 ++ [t] else a.1), a.2) := by
  unfold iterStep
  rw [containsS_eq]

theorem foldl_iterStep (v : Vocabulary) (l : List String) (acc : List String) :
    l.foldl iterStep (acc, v) = (acc ++ l.filter (fun t => containsB v t), v) := by
  induction l generalizing acc with
  | nil => simp
  | cons x xs ih =>
    rw [List.foldl_cons, iterStep_eq]
    cases hb : containsB v x <;> simp [hb, ih, List.filter_cons]

theorem iterS_eq (v : Vocabulary) : iterS v = (iterTokens v, v) := by
  unfold iterS iterTokens
  rw [foldl_iterStep]
  simp

/- ------------------------------------------------------------------ -/
/- Claim theorems.                                                     -/
/- ------------------------------------------------------------------ -/

/-- C1: for every vocabulary and every token `t` other than `unk_label`, the
membership test returns true iff the stored count of `t` in `counts` (0 when
absent) is at least the cutoff. -/
theorem C1_contains_iff_count (v : Vocabulary) (t : String) (h : t ≠ v.unk_label) :
    containsB v t = true ↔ v.cutoff ≤ countOf v.counts t := by
  rw [containsB_of_ne h]
  exact decide_eq_true_iff

theorem C1_contains_iff_count_witness :
    ("b" ≠ specVocab.unk_label)
    ∧ (containsB specVocab "b" = true ↔ specVocab.cutoff ≤ countOf specVocab.counts "b") :=
  ⟨by decide, C1_contains_iff_count specVocab "b" (by decide)⟩

/-- C2 as stated is false: when `unk_label` is itself a key of `counts` it
passes the membership test (its effective count is the cutoff), so iteration
yields it from the keys and then once more from the appended tail.  On
`Vocabulary(["<UNK>"] * 5, unk_cutoff=1)` the label appears twice. -/
theorem C2_cex_unk_twice :
    ¬ (iterTokens collideVocab).count collideVocab.unk_label ≤ 1 := by decide

/-- C2 (amended): for every vocabulary whose `unk_label` is not among the
keys of `counts`, iteration yields exactly the keys whose stored count is at
least the cutoff, in order, followed by `unk_label` appended exactly once iff
`counts` is non-empty; so `unk_label` occurs exactly once when `counts` is
non-empty, zero times when it is empty, and in particular at most once. -/
theorem C2_iter_characterisation (v : Vocabulary) (h : v.unk_label ∉ keys v.counts) :
    iterTokens v
      = (keys v.counts).filter (fun t => decide (v.cutoff ≤ countOf v.counts t))
          ++ (if v.counts.isEmpty then [] else [v.unk_label])
    ∧ (iterTokens v).count v.unk_label = (if v.counts.isEmpty then 0 else 1)
    ∧ (v.counts = [] → iterTokens v = []) := by
  refine ⟨?_, ?_, ?_⟩
  · unfold iterTokens
    rw [filter_containsB_eq h]
  · unfold iterTokens
    rw [List.count_append, count_unk_filter_eq_zero h]
    by_cases he : v.counts.isEmpty <;> simp [he]
  · intro he
    simp [iterTokens, keys, he]

theorem C2_iter_characterisation_witness :
    (iterTokens specVocab
      = (keys specVocab.counts).filter
          (fun t => decide (specVocab.cutoff ≤ countOf specVocab.counts t))
          ++ (if specVocab.counts.isEmpty then [] else [specVocab.unk_label]))
    ∧ (iterTokens specVocab).count specVocab.unk_label
        = (if specVocab.counts.isEmpty then 0 else 1)
    ∧ (specVocab.counts = [] → iterTokens specVocab = []) :=
  C2_iter_characterisation specVocab (by decide)

/-- C3 as stated is false: on `Vocabulary(["<UNK>"], unk_cutoff=2)` the label
is a key with stored count 1 < 2, yet it passes the membership test, so
`len` is 2 while the claim predicts 0 + 1 = 1. -/
theorem C3_cex_len :
    lenV collideVocabLow
      ≠ ((keys collideVocabLow.counts).filter
          (fun t => decide (collideVocabLow.cutoff ≤ countOf collideVocabLow.counts t))).length
        + 1 := by decide

/-- C3 (amended): for every vocabulary whose `unk_label` is not among the
keys of `counts`, `len` equals the number of (distinct) keys whose stored
count is at least the cutoff, plus one for `unk_label` when `counts` is
non-empty; with empty `counts`, `len` is 0. -/
theorem C3_len_eq (v : Vocabulary) (h : v.unk_label ∉ keys v.counts) :
    lenV v
      = ((keys v.counts).filter (fun t => decide (v.cutoff ≤ countOf v.counts t))).length
        + (if v.counts.isEmpty then 0 else 1) := by
  unfold lenV iterTokens
  rw [filter_containsB_eq h, List.length_append]
  by_cases he : v.counts.isEmpty <;> simp [he]

theorem C3_len_eq_witness :
    lenV specVocab
      = ((keys specVocab.counts).filter
          (fun t => decide (specVocab.cutoff ≤ countOf specVocab.counts t))).length
        + (if specVocab.counts.isEmpty then 0 else 1) :=
  C3_len_eq specVocab (by decide)

/-- C4: the count lookup returns the cutoff when the queried token equals
`unk_label` — even when `unk_label` is also a key of `counts` with a
different stored count, as on `Vocabulary(["<UNK>"] * 5, unk_cutoff=1)` where
the stored count is 5 but the lookup yields 1 — and otherwise returns the
stored count from `counts`, with 0 for tokens never observed. -/
theorem C4_getitem_spec (v : Vocabulary) (t : String) :
    (t = v.unk_label → getitem v t = v.cutoff)
    ∧ (t ≠ v.unk_label → getitem v t = countOf v.counts t)
    ∧ (t ≠ v.unk_label → t ∉ keys v.counts → getitem v t = 0)
    ∧ countOf collideVocab.counts collideVocab.unk_label = 5
    ∧ getitem collideVocab collideVocab.unk_label = collideVocab.cutoff := by
  refine ⟨fun e => e ▸ getitem_unk v, fun h => getitem_of_ne h, fun h ha => ?_, by decide, by decide⟩
  rw [getitem_of_ne h, countOf_eq_zero_of_not_mem ha]

theorem C4_getitem_spec_witness :
    ("aliens" = specVocab.unk_label → getitem specVocab "aliens" = specVocab.cutoff)
    ∧ ("aliens" ≠ specVocab.unk_label →
        getitem specVocab "aliens" = countOf specVocab.counts "aliens")
    ∧ ("aliens" ≠ specVocab.unk_label → "aliens" ∉ keys specVocab.counts →
        getitem specVocab "aliens" = 0)
    ∧ countOf collideVocab.counts collideVocab.unk_label = 5
    ∧ getitem collideVocab collideVocab.unk_label = collideVocab.cutoff :=
  C4_getitem_spec specVocab "aliens"

/-- C5: lookup of a single token returns the token itself when it is a
member, else `unk_label`; lookup of a sequence of tokens dispatches each
element, producing a same-length sequence whose i-th element is the
single-token lookup of the i-th input token.  The docstring example
`lookup(["p","a","r","d","b","c"])` on the cutoff-2 vocabulary comes out as
`["<UNK>","a","<UNK>","d","<UNK>","c"]`. -/
theorem C5_lookup_dispatch (v : Vocabulary) (w : String) (ws : List String) :
    lookup v (PyObj.str w)
      = Except.ok (LookupResult.str (if containsB v w then w else v.unk_label))
    ∧ forceGen v (ws.map PyObj.str)
        = ws.map (fun t => Except.ok (LookupResult.str (singleLookup v t)))
    ∧ (forceGen v (ws.map PyObj.str)).length = ws.length
    ∧ forceGen specVocab ((["p", "a", "r", "d", "b", "c"]).map PyObj.str)
        = (["<UNK>", "a", "<UNK>", "d", "<UNK>", "c"]).map
            (fun s => Except.ok (LookupResult.str s)) := by
  refine ⟨rfl, ?_, ?_, by rfl⟩
  · simp only [forceGen, List.map_map]
    rfl
  · simp [forceGen]

/-- C6: after `update(ts)` the stored count of every token equals its stored
count before plus its number of occurrences in `ts` (inserting tokens not
previously present); `cutoff` and `unk_label` are untouched.  On the
docstring example, after `update(["b","b","c"])` the count of `b` is 3 and
`b` becomes a member. -/
theorem C6_update_counts (v : Vocabulary) (ts : List String) (t : String) :
    countOf (updateV v ts).counts t = countOf v.counts t + (ts.count t : Int)
    ∧ (updateV v ts).cutoff = v.cutoff
    ∧ (updateV v ts).unk_label = v.unk_label
    ∧ countOf (updateV specVocab ["b", "b", "c"]).counts "b" = 3
    ∧ containsB (updateV specVocab ["b", "b", "c"]) "b" = true := by
  refine ⟨?_, rfl, rfl, by decide, by decide⟩
  show countOf (counterUpdate v.counts ts) t = _
  induction ts generalizing v with
  | nil => simp [counterUpdate]
  | cons u us ih =>
    have step : countOf (counterIncr v.counts u) t
        = countOf v.counts t + (if u = t then 1 else 0) := by
      induction v.counts with
      | nil =>
        by_cases h : u = t <;> simp [counterIncr, countOf, h]
      | cons p rest ihc =>
        obtain ⟨k, n⟩ := p
        by_cases hk : k = u
        · subst hk
          by_cases h : k = t <;> simp [counterIncr, countOf, h]
        · by_cases h : k = t
          · subst h
            have : u ≠ k := fun e => hk e.symm
            simp [counterIncr, countOf, hk, this]
          · simp [counterIncr, countOf, hk, h, ihc]
    have := ih ⟨counterIncr v.counts u, v.unk_label, v.cutoff⟩
    simp only [counterUpdate, List.foldl_cons] at *
    rw [this, step, List.count_cons]
    by_cases h : u = t
    · subst h
      simp
      omega
    · have hb : ¬ (u == t) = true := by simpa using h
      simp [hb, h]

/-- C7: construction fails with the configuration error exactly when
`unk_cutoff < 1`, yielding no vocabulary object; on success the stored
cutoff and label are the arguments. -/
theorem C7_init_validation (c : CountsArg) (cut : Int) (lbl : String) :
    ((∃ e, vocabInit c cut lbl = Except.error e) ↔ cut < 1)
    ∧ (∀ v, vocabInit c cut lbl = Except.ok v →
        v.cutoff = cut ∧ v.unk_label = lbl ∧ v.counts = initCounts c) := by
  unfold vocabInit
  by_cases h : cut < 1 <;> simp [h]

/-- C8: `lookup` raises the unsupported-input error exactly when its input is
neither a single token (string) nor a sequence; on string and sequence
inputs the call itself raises nothing (the sequence case returns a generator
unevaluated). -/
theorem C8_lookup_type_error (v : Vocabulary) (inp : PyObj) :
    (∃ e, lookup v inp = Except.error e)
      ↔ ((∀ w, inp ≠ PyObj.str w) ∧ (∀ ws, inp ≠ PyObj.list ws)) := by
  cases inp <;> simp [lookup]

/-- C9: in every reachable vocabulary state, including one with an empty
`counts`, the membership test on `unk_label` returns true and lookup of
`unk_label` returns `unk_label` itself — even though iterating an
empty-`counts` vocabulary yields nothing. -/
theorem C9_unk_always_member (v : Vocabulary) :
    containsB v v.unk_label = true
    ∧ lookup v (PyObj.str v.unk_label) = Except.ok (LookupResult.str v.unk_label)
    ∧ (v.counts = [] → iterTokens v = []) := by
  refine ⟨containsB_unk v, ?_, fun he => by simp [iterTokens, keys, he]⟩
  simp [lookup, singleLookup, containsB_unk]

theorem C9_unk_always_member_witness :
    containsB emptyVocab emptyVocab.unk_label = true
    ∧ lookup emptyVocab (PyObj.str emptyVocab.unk_label)
        = Except.ok (LookupResult.str emptyVocab.unk_label)
    ∧ (emptyVocab.counts = [] → iterTokens emptyVocab = []) :=
  C9_unk_always_member emptyVocab

/-- C10: the query operations — count lookup, membership test, lookup,
iteration and len — return the vocabulary state unchanged: same `counts`
(hence same keys: nothing is inserted by querying a never-observed token),
same `cutoff`, same `unk_label`; and on a reachable state (cutoff at least
1) a never-observed token other than `unk_label` reads count 0 and fails the
membership test. -/
theorem C10_queries_preserve_state (v : Vocabulary) (t : String) (inp : PyObj) :
    (getitemS v t).2 = v
    ∧ (containsS v t).2 = v
    ∧ (lookupS v inp).2 = v
    ∧ (iterS v).2 = v
    ∧ (lenS v).2 = v
    ∧ keys (getitemS v t).2.counts = keys v.counts
    ∧ (1 ≤ v.cutoff → t ≠ v.unk_label → t ∉ keys v.counts →
        (getitemS v t).1 = 0 ∧ (containsS v t).1 = false) := by
  have hg := getitemS_snd v t
  have hc : (containsS v t).2 = v := by rw [containsS_eq]
  have hi : (iterS v).2 = v := by rw [iterS_eq]
  refine ⟨hg, hc, ?_, hi, ?_, by rw [hg], ?_⟩
  · cases inp with
    | str w => simp [lookupS, containsS_eq]
    | list ws => rfl
    | int n => rfl
  · show (iterS v).2 = v
    exact hi
  · intro h1 hne hmem
    have h0 : (getitemS v t).1 = 0 := by
      rw [getitemS_fst, getitem_of_ne hne, countOf_eq_zero_of_not_mem hmem]
    refine ⟨h0, ?_⟩
    rw [containsS_eq]
    show containsB v t = false
    rw [containsB_of_ne hne, countOf_eq_zero_of_not_mem hmem]
    simp
    omega

theorem C10_queries_preserve_state_witness :
    (getitemS specVocab "zz").2 = specVocab
    ∧ (containsS specVocab "zz").2 = specVocab
    ∧ (lookupS specVocab (PyObj.str "zz")).2 = specVocab
    ∧ (iterS specVocab).2 = specVocab
    ∧ (lenS specVocab).2 = specVocab
    ∧ keys (getitemS specVocab "zz").2.counts = keys specVocab.counts
    ∧ (1 ≤ specVocab.cutoff → "zz" ≠ specVocab.unk_label → "zz" ∉ keys specVocab.counts →
        (getitemS specVocab "zz").1 = 0 ∧ (containsS specVocab "zz").1 = false) :=
  C10_queries_preserve_state specVocab "zz" (PyObj.str "zz")

end NltkVocab
